import Mathlib

/-!
Verification of the Account REST service (route handlers in
`service/routes.py`, Account entity and error translator per the
specification).

The route handlers are translated directly from `service/routes.py`.
The Account entity (`service/models.py`) and the error translator
(`service/common/error_handlers.py`) are not part of the repository
snapshot; they are modelled from the specification (sections 4.1 and 4.3)
and each such definition carries a doc comment saying so.
-/

/-- The Account row: `id` (primary key, assigned by the persistence layer),
plus the five scalar columns of the data model.  `date_joined` is kept as
its ISO date string. -/
structure Account where
  id : Nat
  name : String
  email : String
  address : String
  phone_number : String
  date_joined : String
deriving Repr, DecidableEq

/-- A JSON object representation of an account as it appears in a request
or response body: every field optional, mirroring which keys are present. -/
structure AccountJson where
  id? : Option Nat
  name? : Option String
  email? : Option String
  address? : Option String
  phone_number? : Option String
  date_joined? : Option String
deriving Repr, DecidableEq

/-- An HTTP response body: a JSON object, a JSON array, a structured error
body (status code and message per the error translator), or empty. -/
inductive Body where
  | obj (j : AccountJson)
  | arr (l : List AccountJson)
  | err (code : Nat) (message : String)
  | empty
deriving Repr, DecidableEq

/-- An HTTP response: status code, body, and optional Location header. -/
structure Response where
  status : Nat
  body : Body
  location : Option String := none
deriving Repr, DecidableEq

/-- The backing store: the Account table plus the next id the persistence
layer will assign (ids are auto-assigned, unique). -/
structure Store where
  accounts : List Account
  nextId : Nat
deriving Repr, DecidableEq

/-- An empty store; the first assigned id is 1, so id 0 is never assigned. -/
def Store.empty : Store := { accounts := [], nextId := 1 }

/-- Store well-formedness: every stored id is below the next id to assign
(the persistence layer never reuses ids). -/
def Store.wf (st : Store) : Bool :=
  st.accounts.all (fun a => a.id < st.nextId)

/-- Modelled from the spec: `Account()` constructs a fresh entity with no
assigned id (modelled as 0, never a stored id) and `date_joined` defaulted
to the creation date (`service/models.py` is absent from the snapshot). -/
def Account.fresh (today : String) : Account :=
  { id := 0, name := "", email := "", address := "", phone_number := "",
    date_joined := today }

/-- Modelled from the spec: `serialize()` produces a mapping with all
fields, never omitting a field (section 4.1; `service/models.py` is absent
from the snapshot). -/
def Account.serialize (self : Account) : AccountJson :=
  { id? := some self.id, name? := some self.name, email? := some self.email,
    address? := some self.address, phone_number? := some self.phone_number,
    date_joined? := some self.date_joined }

/-- Modelled from the spec: `deserialize(representation)` fails when a
required key (`name`, `email`, `address`, `phone_number`) is missing;
an `id` in the input is accepted but not validated; `date_joined` defaults
when omitted (section 4.1; `service/models.py` is absent from the
snapshot).  Applied onto an existing entity, fields absent from the input
that are not required keep the entity's current value. -/
def Account.deserialize (self : Account) (data : AccountJson) :
    Except String Account :=
  match data.name?, data.email?, data.address?, data.phone_number? with
  | some n, some e, some a, some p =>
      Except.ok { id := data.id?.getD self.id, name := n, email := e,
                  address := a, phone_number := p,
                  date_joined := data.date_joined?.getD self.date_joined }
  | _, _, _, _ => Except.error "missing required field"

/-- Modelled from the spec: class-level `find(id)` is a single-row lookup,
absent (not an error) when no row matches (section 4.1; `service/models.py`
is absent from the snapshot). -/
def Account.find (st : Store) (account_id : Nat) : Option Account :=
  st.accounts.find? (fun a => a.id == account_id)

/-- Modelled from the spec: class-level `all()` returns every row
(section 4.1; `service/models.py` is absent from the snapshot). -/
def Account.all (st : Store) : List Account :=
  st.accounts

/-- Modelled from the spec: `create()` inserts a new row and assigns the
generated id back onto the in-memory entity (section 4.1;
`service/models.py` is absent from the snapshot). -/
def Account.create (self : Account) (st : Store) : Account × Store :=
  let assigned := { self with id := st.nextId }
  (assigned, { accounts := st.accounts ++ [assigned], nextId := st.nextId + 1 })

/-- Modelled from the spec: `update()` persists the current in-memory field
values as a full replace of the row matching `id` (section 4.1;
`service/models.py` is absent from the snapshot). -/
def Account.update (self : Account) (st : Store) : Store :=
  { st with accounts := st.accounts.map (fun a => if a.id == self.id then self else a) }

/-- Modelled from the spec: `delete()` removes the row matching `id`, a
no-op if absent (section 4.1; `service/models.py` is absent from the
snapshot). -/
def Account.delete (self : Account) (st : Store) : Store :=
  { st with accounts := st.accounts.filter (fun a => a.id != self.id) }

/-- Modelled from the spec: the Not-Found error translator produces a 404
response with a structured error body (section 4.3;
`service/common/error_handlers.py` is absent from the snapshot). -/
def not_found (message : String) : Response :=
  { status := 404, body := Body.err 404 message }

/-- Modelled from the spec: the validation-error translator produces a 400
response with a structured error body carrying the validation detail
(section 4.3; `service/common/error_handlers.py` is absent from the
snapshot). -/
def request_validation_error (message : String) : Response :=
  { status := 400, body := Body.err 400 message }

/-- `check_content_type` from `service/routes.py`: reads the Content-Type
header; returns normally only when the header is present, truthy, and
equal to the required media type.  Python truthiness makes an empty string
fail the check. -/
def check_content_type (content_type : Option String) (media_type : String) :
    Bool :=
  match content_type with
  | some s => !s.isEmpty && s == media_type
  | none => false

/-- `create_accounts` from `service/routes.py`: checks the content type
(415 on failure), deserializes the posted body into a fresh Account (400
on validation failure, modelled also for an unparseable body), creates it,
and responds 201 with the serialized entity and a Location header pointing
at its read URL. -/
def create_accounts (content_type : Option String) (body : Option AccountJson)
    (st : Store) (today : String) : Response × Store :=
  if check_content_type content_type "application/json" then
    match body with
    | none => (request_validation_error "body is not JSON", st)
    | some data =>
      match (Account.fresh today).deserialize data with
      | Except.error msg => (request_validation_error msg, st)
      | Except.ok account =>
        let created := account.create st
        let location_url := "/accounts/" ++ toString created.1.id
        ({ status := 201, body := Body.obj created.1.serialize,
           location := some location_url }, created.2)
  else
    ({ status := 415,
       body := Body.err 415 "Content-Type must be application/json" }, st)

/-- `list_accounts` from `service/routes.py`: serializes every stored
account and responds 200 with the JSON array. -/
def list_accounts (st : Store) : Response :=
  { status := 200, body := Body.arr ((Account.all st).map Account.serialize) }

/-- `read_account` from `service/routes.py`: finds the account by id,
responding 404 when absent and 200 with the serialized entity when
present. -/
def read_account (account_id : Nat) (st : Store) : Response :=
  match Account.find st account_id with
  | none => not_found ("Account " ++ toString account_id ++ " does not exist.")
  | some account => { status := 200, body := Body.obj account.serialize }

/-- `update_account` from `service/routes.py`: finds the account (404 when
absent), deserializes the body onto the found entity (400 on validation
failure, modelled also for an unparseable body), rejects with 400 "ID
mismatch" when the resulting id differs from the path id, otherwise
persists and responds 200 with the serialized updated entity. -/
def update_account (account_id : Nat) (body : Option AccountJson)
    (st : Store) : Response × Store :=
  match Account.find st account_id with
  | none =>
    (not_found ("Account " ++ toString account_id ++ " does not exist."), st)
  | some account_found =>
    match body with
    | none => (request_validation_error "body is not JSON", st)
    | some data =>
      match account_found.deserialize data with
      | Except.error msg => (request_validation_error msg, st)
      | Except.ok updated =>
        if !(updated.id == account_id) then
          (request_validation_error "ID mismatch", st)
        else
          ({ status := 200, body := Body.obj updated.serialize },
           updated.update st)

/-- `delete_account` from `service/routes.py`: finds the account, deletes
it only when found, and responds 204 with an empty body either way. -/
def delete_account (account_id : Nat) (st : Store) : Response × Store :=
  match Account.find st account_id with
  | some account_found => (⟨204, Body.empty, none⟩, account_found.delete st)
  | none => (⟨204, Body.empty, none⟩, st)

/-- A representation contains all four required fields. -/
def AccountJson.isValid (data : AccountJson) : Bool :=
  data.name?.isSome && data.email?.isSome && data.address?.isSome &&
    data.phone_number?.isSome

/-- A valid representation deserializes successfully, and the resulting id
is the embedded id when present, else the entity's existing id. -/
theorem deserialize_valid_id (self : Account) (data : AccountJson)
    (h : data.isValid = true) :
    ∃ upd, self.deserialize data = Except.ok upd ∧
      upd.id = data.id?.getD self.id := by
  unfold AccountJson.isValid at h
  rcases hn : data.name? with _ | n <;> rcases he : data.email? with _ | e <;>
    rcases ha : data.address? with _ | a <;>
    rcases hp : data.phone_number? with _ | p <;>
    simp [hn, he, ha, hp] at h
  refine ⟨{ id := data.id?.getD self.id, name := n, email := e, address := a,
            phone_number := p,
            date_joined := data.date_joined?.getD self.date_joined },
          ?_, rfl⟩
  simp [Account.deserialize, hn, he, ha, hp]

/-- A representation missing a required field fails to deserialize. -/
theorem deserialize_invalid (self : Account) (data : AccountJson)
    (h : data.isValid = false) :
    self.deserialize data = Except.error "missing required field" := by
  unfold AccountJson.isValid at h
  unfold Account.deserialize
  cases hn : data.name? <;> cases he : data.email? <;>
    cases ha : data.address? <;> cases hp : data.phone_number? <;>
    simp [hn, he, ha, hp] at h ⊢

/-- A found account carries the id it was looked up by. -/
theorem find_id_eq (st : Store) (account_id : Nat) (a : Account)
    (h : Account.find st account_id = some a) : a.id = account_id := by
  have := List.find?_some h
  simpa using this

/-- The content-type check for JSON passes exactly on the literal header. -/
theorem check_content_type_iff (content_type : Option String) :
    check_content_type content_type "application/json" = true ↔
      content_type = some "application/json" := by
  cases content_type with
  | none => simp [check_content_type]
  | some s =>
    simp [check_content_type, String.isEmpty]
    rintro rfl
    decide

/-- A concrete valid request body used by the witnesses below. -/
def sampleBody : AccountJson :=
  { id? := none, name? := some "Joe", email? := some "joe@x.com",
    address? := some "1 Main", phone_number? := some "555-1212",
    date_joined? := some "2020-01-01" }

/-- A concrete stored account used by the witnesses below. -/
def sampleAccount : Account :=
  { id := 1, name := "Joe", email := "joe@x.com", address := "1 Main",
    phone_number := "555-1212", date_joined := "2020-01-01" }

/-- A concrete store holding `sampleAccount` under id 1. -/
def sampleStore : Store := { accounts := [sampleAccount], nextId := 2 }

/-- C1: a PUT whose path id matches no stored account returns 404, for
every request body, including one whose embedded id differs from the path
id: the existence check is evaluated before the id-mismatch check, so the
400 mismatch response can only arise for an id that was found in the
store. -/
theorem update_account_nonexistent_404 (account_id : Nat)
    (body : Option AccountJson) (st : Store)
    (h : Account.find st account_id = none) :
    (update_account account_id body st).1.status = 404 := by
  simp [update_account, h, not_found]

/-- Witness for C1: in the empty store, a PUT to id 0 with a body whose
embedded id is 5 returns 404. -/
theorem update_account_nonexistent_404_witness :
    Account.find Store.empty 0 = none ∧
    (update_account 0 (some { sampleBody with id? := some 5 })
        Store.empty).1.status = 404 :=
  ⟨rfl, update_account_nonexistent_404 0
      (some { sampleBody with id? := some 5 }) Store.empty rfl⟩

/-- C6: DELETE returns 204 with an empty body for every id and store,
whether or not an account with that id exists. -/
theorem delete_account_always_204 (account_id : Nat) (st : Store) :
    (delete_account account_id st).1.status = 204 ∧
    (delete_account account_id st).1.body = Body.empty := by
  unfold delete_account
  cases Account.find st account_id <;> simp

/-- C8: GET of a single account returns 404 when no account with the path
id exists, and 200 with the serialized entity when one does. -/
theorem read_account_200_or_404 (account_id : Nat) (st : Store) :
    (Account.find st account_id = none →
      (read_account account_id st).status = 404) ∧
    (∀ a, Account.find st account_id = some a →
      read_account account_id st =
        { status := 200, body := Body.obj a.serialize }) := by
  constructor
  · intro h
    simp [read_account, h, not_found]
  · intro a h
    simp [read_account, h]

/-- Witness for C8: GET /accounts/0 in the empty store is 404, and GET
/accounts/1 in the sample store is 200 with the serialized account. -/
theorem read_account_200_or_404_witness :
    (read_account 0 Store.empty).status = 404 ∧
    read_account 1 sampleStore =
      { status := 200, body := Body.obj sampleAccount.serialize } :=
  ⟨(read_account_200_or_404 0 Store.empty).1 rfl,
   (read_account_200_or_404 1 sampleStore).2 sampleAccount rfl⟩

/-- C10: a DELETE of an id absent from the store leaves the store
unchanged: the entity delete operation is only invoked when the find
returns an account. -/
theorem delete_account_nonexistent_no_mutation (account_id : Nat)
    (st : Store) (h : Account.find st account_id = none) :
    (delete_account account_id st).2 = st := by
  simp [delete_account, h]

/-- Witness for C10: deleting absent id 3 from the sample store leaves it
unchanged. -/
theorem delete_account_nonexistent_no_mutation_witness :
    Account.find sampleStore 3 = none ∧
    (delete_account 3 sampleStore).2 = sampleStore :=
  ⟨rfl, delete_account_nonexistent_no_mutation 3 sampleStore rfl⟩

/-- C2: a PUT to an existing account whose valid body embeds an id
differing from the path id returns the 400 "ID mismatch" validation
response and leaves the store unchanged. -/
theorem update_account_id_mismatch_400 (account_id j : Nat)
    (data : AccountJson) (st : Store) (a : Account)
    (hfind : Account.find st account_id = some a)
    (hv : data.isValid = true)
    (hid : data.id? = some j) (hne : j ≠ account_id) :
    (update_account account_id (some data) st).1 =
      request_validation_error "ID mismatch" ∧
    (update_account account_id (some data) st).2 = st := by
  obtain ⟨upd, hok, hupdid⟩ := deserialize_valid_id a data hv
  have hj : upd.id = j := by rw [hupdid, hid]; rfl
  have hbeq : (upd.id == account_id) = false := by simp [hj, hne]
  simp [update_account, hfind, hok, hbeq]

/-- Witness for C2: a PUT to the stored account with id 1 using a body
embedding id 2 returns 400 "ID mismatch" and leaves the store unchanged. -/
theorem update_account_id_mismatch_400_witness :
    Account.find sampleStore 1 = some sampleAccount ∧
    (update_account 1 (some { sampleBody with id? := some 2 })
        sampleStore).1 = request_validation_error "ID mismatch" ∧
    (update_account 1 (some { sampleBody with id? := some 2 })
        sampleStore).2 = sampleStore :=
  ⟨rfl, update_account_id_mismatch_400 1 2 { sampleBody with id? := some 2 }
      sampleStore sampleAccount rfl rfl rfl (by decide)⟩

/-- C9: a PUT to an existing account with a valid body containing no id
field passes the mismatch check trivially (the found entity keeps its own
id, which equals the path id) and is accepted with 200. -/
theorem update_account_no_body_id_200 (account_id : Nat)
    (data : AccountJson) (st : Store) (a : Account)
    (hfind : Account.find st account_id = some a)
    (hv : data.isValid = true) (hid : data.id? = none) :
    (update_account account_id (some data) st).1.status = 200 := by
  obtain ⟨upd, hok, hupdid⟩ := deserialize_valid_id a data hv
  have haid : a.id = account_id := find_id_eq st account_id a hfind
  have hj : upd.id = account_id := by rw [hupdid, hid]; simpa using haid
  simp [update_account, hfind, hok, hj]

/-- Witness for C9: updating the stored account with id 1 using a valid
body that lacks an id field returns 200. -/
theorem update_account_no_body_id_200_witness :
    Account.find sampleStore 1 = some sampleAccount ∧
    sampleBody.isValid = true ∧ sampleBody.id? = none ∧
    (update_account 1 (some sampleBody) sampleStore).1.status = 200 :=
  ⟨rfl, rfl, rfl,
   update_account_no_body_id_200 1 sampleBody sampleStore sampleAccount
     rfl rfl rfl⟩

/-- C4: a POST whose Content-Type header is not exactly
"application/json" (absent, "text/html", "application/json;
charset=utf-8", ...) returns 415 regardless of the body, and the store is
untouched: the check precedes any deserialization or persistence. -/
theorem create_accounts_wrong_content_type_415 (content_type : Option String)
    (body : Option AccountJson) (st : Store) (today : String)
    (h : content_type ≠ some "application/json") :
    (create_accounts content_type body st today).1.status = 415 ∧
    (create_accounts content_type body st today).2 = st := by
  have hc : check_content_type content_type "application/json" = false := by
    cases hcc : check_content_type content_type "application/json"
    · rfl
    · exact absurd ((check_content_type_iff content_type).mp hcc) h
  simp [create_accounts, hc]

/-- Witness for C4: a POST with Content-Type "text/html" and a fully valid
body still returns 415 and leaves the empty store empty. -/
theorem create_accounts_wrong_content_type_415_witness :
    (create_accounts (some "text/html") (some sampleBody) Store.empty
        "2020-01-01").1.status = 415 ∧
    (create_accounts (some "text/html") (some sampleBody) Store.empty
        "2020-01-01").2 = Store.empty :=
  create_accounts_wrong_content_type_415 (some "text/html")
    (some sampleBody) Store.empty "2020-01-01" (by decide)

/-- C5: a POST with the correct Content-Type whose body is missing a
required field returns 400, and no account row is created: the store is
unchanged. -/
theorem create_accounts_missing_field_400 (data : AccountJson) (st : Store)
    (today : String)
    (h : data.name? = none ∨ data.email? = none ∨ data.address? = none ∨
      data.phone_number? = none) :
    (create_accounts (some "application/json") (some data) st
        today).1.status = 400 ∧
    (create_accounts (some "application/json") (some data) st today).2
      = st := by
  have hv : data.isValid = false := by
    unfold AccountJson.isValid
    rcases h with h | h | h | h <;> simp [h]
  have herr := deserialize_invalid (Account.fresh today) data hv
  have hct :
      check_content_type (some "application/json") "application/json"
        = true := by decide
  simp [create_accounts, hct, herr, request_validation_error]

/-- Witness for C5: posting a body carrying only a name returns 400 and
leaves the empty store empty. -/
theorem create_accounts_missing_field_400_witness :
    (create_accounts (some "application/json")
        (some { id? := none, name? := some "x", email? := none,
                address? := none, phone_number? := none,
                date_joined? := none }) Store.empty "2020-01-01").1.status
      = 400 ∧
    (create_accounts (some "application/json")
        (some { id? := none, name? := some "x", email? := none,
                address? := none, phone_number? := none,
                date_joined? := none }) Store.empty "2020-01-01").2
      = Store.empty :=
  create_accounts_missing_field_400
    { id? := none, name? := some "x", email? := none, address? := none,
      phone_number? := none, date_joined? := none }
    Store.empty "2020-01-01" (Or.inr (Or.inl rfl))

/-- In a well-formed store no stored row carries the next id to assign. -/
theorem find?_nextId_none (st : Store) (hwf : st.wf = true) :
    st.accounts.find? (fun a => a.id == st.nextId) = none := by
  rw [List.find?_eq_none]
  intro x hx
  have hlt : x.id < st.nextId := by
    unfold Store.wf at hwf
    rw [List.all_eq_true] at hwf
    exact of_decide_eq_true (hwf x hx)
  simp [Nat.ne_of_lt hlt]

/-- C3: a POST with the JSON content type and a body that deserializes
into a valid Account returns 201, with the serialized created entity
(carrying the store's next id) as the body and a Location header at its
read URL, and an immediately following GET with that id returns 200 with a
body equal to the POST response body. -/
theorem create_accounts_201_then_read (st : Store) (today : String)
    (data : AccountJson) (account : Account)
    (hwf : st.wf = true)
    (hok : (Account.fresh today).deserialize data = Except.ok account) :
    (create_accounts (some "application/json") (some data) st
        today).1.status = 201 ∧
    (create_accounts (some "application/json") (some data) st today).1.body
      = Body.obj ({ account with id := st.nextId } : Account).serialize ∧
    (create_accounts (some "application/json") (some data) st
        today).1.location
      = some ("/accounts/" ++ toString st.nextId) ∧
    read_account st.nextId
        (create_accounts (some "application/json") (some data) st today).2
      = { status := 200,
          body := (create_accounts (some "application/json") (some data)
            st today).1.body } := by
  have hct :
      check_content_type (some "application/json") "application/json"
        = true := by decide
  have hnone := find?_nextId_none st hwf
  refine ⟨?_, ?_, ?_, ?_⟩
  · simp [create_accounts, hct, hok, Account.create]
  · simp [create_accounts, hct, hok, Account.create]
  · simp [create_accounts, hct, hok, Account.create]
  · simp [create_accounts, hct, hok, Account.create, read_account,
      Account.find, hnone]

/-- Witness for C3: posting the sample body into the empty store returns
201 and a GET of id 1 on the resulting store returns 200 with the same
body. -/
theorem create_accounts_201_then_read_witness :
    (create_accounts (some "application/json") (some sampleBody)
        Store.empty "2020-01-01").1.status = 201 ∧
    read_account 1
        (create_accounts (some "application/json") (some sampleBody)
          Store.empty "2020-01-01").2
      = { status := 200,
          body := (create_accounts (some "application/json")
            (some sampleBody) Store.empty "2020-01-01").1.body } :=
  ⟨(create_accounts_201_then_read Store.empty "2020-01-01" sampleBody
      { sampleAccount with id := 0 } rfl rfl).1,
   (create_accounts_201_then_read Store.empty "2020-01-01" sampleBody
      { sampleAccount with id := 0 } rfl rfl).2.2.2⟩

/-- A sequence of POSTs with the JSON content type, threading the store. -/
def postMany (bodies : List AccountJson) (today : String) (st : Store) :
    Store :=
  bodies.foldl
    (fun s b =>
      (create_accounts (some "application/json") (some b) s today).2)
    st

/-- A POST of a valid body appends exactly one row to the store. -/
theorem create_accounts_valid_appends (data : AccountJson) (st : Store)
    (today : String) (hv : data.isValid = true) :
    ∃ x, (create_accounts (some "application/json") (some data) st
        today).2.accounts = st.accounts ++ [x] := by
  have hct :
      check_content_type (some "application/json") "application/json"
        = true := by decide
  obtain ⟨acc, hok, _⟩ := deserialize_valid_id (Account.fresh today) data hv
  refine ⟨{ acc with id := st.nextId }, ?_⟩
  simp [create_accounts, hct, hok, Account.create]

/-- Each valid POST grows the table by one row. -/
theorem postMany_length (bodies : List AccountJson) (today : String)
    (st : Store) (h : ∀ b ∈ bodies, b.isValid = true) :
    (postMany bodies today st).accounts.length
      = st.accounts.length + bodies.length := by
  revert h
  induction bodies generalizing st with
  | nil =>
    intro h
    simp [postMany]
  | cons b bs ih =>
    intro h
    have hb : b.isValid = true := h b (List.mem_cons_self b bs)
    have hrest : ∀ c ∈ bs, c.isValid = true :=
      fun c hc => h c (List.mem_cons_of_mem b hc)
    obtain ⟨x, hx⟩ := create_accounts_valid_appends b st today hb
    have hstep : postMany (b :: bs) today st
        = postMany bs today
            (create_accounts (some "application/json") (some b) st
              today).2 := rfl
    rw [hstep, ih _ hrest, hx]
    simp [List.length_append]
    omega

/-- C7: GET /accounts always returns 200 with the JSON array of every
stored account's serialization, and after creating N accounts via valid
POSTs into an empty store the returned array has exactly N entries. -/
theorem list_accounts_all_entries :
    (∀ st : Store, (list_accounts st).status = 200 ∧
      (list_accounts st).body
        = Body.arr ((Account.all st).map Account.serialize)) ∧
    (∀ (bodies : List AccountJson) (today : String),
      (∀ b ∈ bodies, b.isValid = true) →
      ∃ l, (list_accounts (postMany bodies today Store.empty)).body
          = Body.arr l ∧ l.length = bodies.length) := by
  constructor
  · intro st
    exact ⟨rfl, rfl⟩
  · intro bodies today h
    refine ⟨(postMany bodies today Store.empty).accounts.map
      Account.serialize, rfl, ?_⟩
    have := postMany_length bodies today Store.empty h
    simpa [Store.empty] using this

/-- Witness for C7: after two valid POSTs into the empty store the listing
body is an array of exactly two entries. -/
theorem list_accounts_all_entries_witness :
    ∃ l, (list_accounts (postMany [sampleBody, sampleBody] "2020-01-01"
        Store.empty)).body = Body.arr l ∧ l.length = 2 :=
  list_accounts_all_entries.2 [sampleBody, sampleBody] "2020-01-01"
    (by decide)
